import Mathlib

/-!
Shallow embedding of the vinyl-player credential / playback layer.

The embedded code is `src/lib/spotify.ts` (class `SpotifyAuth` and its
helpers), the auth-status route, the user-data route, the playlists/search
route and the playback route.  Network effects are made explicit: every
axios call site becomes a parameter describing the outcome the transport
delivered at that site, and the two reads of `Date.now()` in
`getValidAccessToken` / `refreshAccessToken` become explicit clock
parameters.  The embedding follows the JS runtime, not the TypeScript
annotations: response bodies are destructured without validation, so fields
may be `undefined` (`Option`) and arithmetic on them may produce `NaN`
(`JsNum.nan`), and axios's default `validateStatus` resolves every 2xx
answer.  Functions that count the network calls a code path performs mirror
the control flow of the corresponding function.
-/

/-- JS truthiness of a `string | undefined` value: `undefined` and the empty
string are falsy, every other string is truthy. -/
def truthy : Option String → Bool
  | none => false
  | some s => !(s == "")

/-- The two Spotify application credentials drawn from `process.env`;
`none` models an unset variable. -/
structure Env where
  clientId : Option String
  clientSecret : Option String
deriving DecidableEq

/-- The guard `if (!clientId || !clientSecret)` used by `refreshAccessToken`,
`getSpotifyAccessToken` and every route. -/
def Env.configured (e : Env) : Bool :=
  truthy e.clientId && truthy e.clientSecret

/-- A number as the token code of `spotify.ts` produces it at runtime: an
actual integer, or the `NaN` that arithmetic on an undefined field of an
unvalidated response body (or a non-numeric `parseInt`) yields. -/
inductive JsNum where
  | int (n : Int)
  | nan
deriving DecidableEq

/-- The JS `<` comparison on numbers: false whenever either side is `NaN`. -/
def JsNum.lt : JsNum → JsNum → Bool
  | .int a, .int b => decide (a < b)
  | _, _ => false

/-- `SpotifyTokens` from `src/lib/spotify.ts` (the spec's CredentialPair) as
its values exist at runtime: the code never validates the refresh response
body, so `access_token` can be `undefined` and `expires_at` can be `NaN`
after a malformed refresh; `refresh_token` is always the defined string the
code carried in. -/
structure SpotifyTokens where
  access_token : Option String
  refresh_token : String
  expires_at : JsNum
deriving DecidableEq

/-- The destructuring `const { access_token, expires_in } = response.data`
on line 133 of `spotify.ts`: a 2xx body is taken as-is without validation,
so each field may be absent (`undefined`). -/
structure RefreshResponse where
  access_token : Option String
  expires_in : Option Int
deriving DecidableEq

/-- Outcome of one axios call as the calling code observes it when it
rejects: `status` is `error.response?.status`, present when the service
answered (with a status the default `validateStatus` rejects, i.e. outside
2xx) and absent on transport-level failure. -/
structure AxiosErr where
  status : Option Nat
deriving DecidableEq

/-- Errors thrown by the embedded TypeScript are ordinary `Error` values;
the route handlers dispatch on the message string, so the message is the
whole error. -/
abbrev ErrMsg := String

/-- `Date.now() + (expires_in * 1000)` as line 134 of `spotify.ts` computes
it: an undefined `expires_in` (malformed body) makes the product, and hence
the sum, `NaN`. -/
def expiryFrom (issuedAt : Int) : Option Int → JsNum
  | none => .nan
  | some n => .int (issuedAt + n * 1000)

/-- `SpotifyAuth.refreshAccessToken` (spotify.ts lines 108-145).  Throws
(`.error`) "Spotify credentials not configured" when the application
credentials are missing and converts a rejected token POST into
"Failed to refresh access token"; a 2xx answer — malformed or not — does
not throw: its unvalidated fields flow into the returned tokens, which keep
the same refresh token and set `expires_at` to the issuance-time clock
reading plus `expires_in * 1000` (NaN when `expires_in` is undefined).
`issuedAt` is the `Date.now()` read on line 134; `net` is the outcome of
the `axios.post` to the token endpoint. -/
def refreshAccessToken (env : Env) (issuedAt : Int) (refreshToken : String)
    (net : Except AxiosErr RefreshResponse) : Except ErrMsg SpotifyTokens :=
  if !env.configured then .error "Spotify credentials not configured"
  else
    match net with
    | .error _ => .error "Failed to refresh access token"
    | .ok r => .ok ⟨r.access_token, refreshToken, expiryFrom issuedAt r.expires_in⟩

/-- Number of POSTs to the token endpoint one run of `refreshAccessToken`
performs: the call is reached exactly when the configuration guard passes. -/
def refreshAccessTokenCalls (env : Env) : Nat :=
  if env.configured then 1 else 0

/-- The non-null result of `SpotifyAuth.getValidAccessToken`:
`{ accessToken, updatedTokens? }`; `accessToken` is `undefined` when it was
copied out of a malformed refresh. -/
structure TokenResult where
  accessToken : Option String
  updatedTokens : Option SpotifyTokens
deriving DecidableEq

/-- `SpotifyAuth.getValidAccessToken` (spotify.ts lines 147-169), the spec's
`TokenAuthority.resolve`.  `none` is the `null` fallback result.  `now` is
the `Date.now()` read in the validity check on line 154 (a JS `<`, so a NaN
expiry counts as expired), `issuedAt` the one inside `refreshAccessToken`.
The whole refresh is wrapped in try/catch, so every `.error` of
`refreshAccessToken` (missing configuration included) becomes `none`; the
function is total and never re-throws. -/
def getValidAccessToken (env : Env) (now issuedAt : Int)
    (tokens : Option SpotifyTokens)
    (net : Except AxiosErr RefreshResponse) : Option TokenResult :=
  match tokens with
  | none => none
  | some t =>
    if JsNum.lt (.int now) t.expires_at then some ⟨t.access_token, none⟩
    else
      match refreshAccessToken env issuedAt t.refresh_token net with
      | .ok newTokens => some ⟨newTokens.access_token, some newTokens⟩
      | .error _ => none

/-- Number of network calls one run of `getValidAccessToken` performs:
zero on the no-tokens and still-valid paths, otherwise whatever
`refreshAccessToken` performs. -/
def getValidAccessTokenCalls (env : Env) (now : Int)
    (tokens : Option SpotifyTokens) : Nat :=
  match tokens with
  | none => 0
  | some t =>
    if JsNum.lt (.int now) t.expires_at then 0 else refreshAccessTokenCalls env

/-- Total refresh calls issued by `n` overlapping invocations of
`getValidAccessToken` on the same tokens.  `SpotifyAuth` declares no static
mutable field: there is no shared in-flight promise, memo or lock anywhere
in `spotify.ts`, so concurrent invocations execute the function body
independently and their refresh calls add up. -/
def concurrentResolveRefreshCalls (n : Nat) (env : Env) (now : Int)
    (tokens : Option SpotifyTokens) : Nat :=
  n * getValidAccessTokenCalls env now tokens

/-- Body of a successful answer of the token endpoint to the
`client_credentials` grant used by the search route. -/
structure ClientCredResponse where
  access_token : String
deriving DecidableEq

/-- `getSpotifyAccessToken` from the search route (the spec's
`ServiceCredentialProvider`).  The module declares no cache variable: the
function body runs in full on every call.  `net` is the outcome of the
client-credentials `axios.post`. -/
def getSpotifyAccessToken (env : Env)
    (net : Except AxiosErr ClientCredResponse) : Except ErrMsg String :=
  if !env.configured then .error "Spotify credentials not configured"
  else
    match net with
    | .error _ => .error "Failed to authenticate with Spotify"
    | .ok r => .ok r.access_token

/-- Client-credentials exchanges one call of `getSpotifyAccessToken`
performs: the POST is reached exactly when the configuration guard passes. -/
def getSpotifyAccessTokenExchanges (env : Env) : Nat :=
  if env.configured then 1 else 0

/-- Total exchanges performed by `n` calls of `getSpotifyAccessToken`.
With no module-level cache in the source, each call repeats the exchange,
so the counts add up. -/
def repeatedGetSpotifyAccessTokenExchanges (n : Nat) (env : Env) : Nat :=
  n * getSpotifyAccessTokenExchanges env

/-- A value of `response.data` for the playback-state GET as the JS runtime
delivers it: the empty string an empty 204 body parses to (`emptyBody`), or
a decoded playback-state object. -/
inductive PlaybackData (P : Type) where
  | emptyBody
  | state (p : P)
deriving DecidableEq

/-- `SpotifyAuth.getCurrentPlayback` (spotify.ts lines 397-416), generic in
the playback-state payload `P`.  The try branch returns `response.data`
unchanged.  The call is a plain `axios.get`, whose default `validateStatus`
resolves every 2xx answer — a 204 resolves with `emptyBody` as its data —
so only non-2xx answers and transport failures reach the catch; there a
rejection carrying response status 204 would map to `none`
(spotify.ts:410, a branch the default-configured transport never feeds)
and anything else becomes the fixed error message. -/
def getCurrentPlayback (P : Type) (net : Except AxiosErr (PlaybackData P)) :
    Except ErrMsg (Option (PlaybackData P)) :=
  match net with
  | .ok d => .ok (some d)
  | .error e =>
    if e.status == some 204 then .ok none
    else .error "Failed to get current playback"

/-- `SpotifyAuth.playTrack` (spotify.ts lines 278-301): any failure of the
PUT is replaced by the fixed message, discarding the remote status. -/
def playTrack (net : Except AxiosErr Unit) : Except ErrMsg Unit :=
  match net with
  | .ok _ => .ok ()
  | .error _ => .error "Failed to start playback"

/-- `SpotifyAuth.pausePlayback` (spotify.ts lines 303-324). -/
def pausePlayback (net : Except AxiosErr Unit) : Except ErrMsg Unit :=
  match net with
  | .ok _ => .ok ()
  | .error _ => .error "Failed to pause playback"

/-- `SpotifyAuth.skipToNext` (spotify.ts lines 326-347). -/
def skipToNext (net : Except AxiosErr Unit) : Except ErrMsg Unit :=
  match net with
  | .ok _ => .ok ()
  | .error _ => .error "Failed to skip to next track"

/-- `SpotifyAuth.skipToPrevious` (spotify.ts lines 349-370). -/
def skipToPrevious (net : Except AxiosErr Unit) : Except ErrMsg Unit :=
  match net with
  | .ok _ => .ok ()
  | .error _ => .error "Failed to skip to previous track"

/-- The `volume_percent` value `SpotifyAuth.setVolume` (spotify.ts line
375) puts in the request body: `Math.max(0, Math.min(100, volumePercent))`. -/
def setVolumeSentPercent (volumePercent : Int) : Int :=
  max 0 (min 100 volumePercent)

/-- `SpotifyAuth.setVolume` (spotify.ts lines 372-395): failure handling of
the PUT, parallel to the other transport commands. -/
def setVolume (net : Except AxiosErr Unit) : Except ErrMsg Unit :=
  match net with
  | .ok _ => .ok ()
  | .error _ => .error "Failed to set volume"

/-- Helper: does `pat` occur as a contiguous run inside the character list?
Mirrors JS `String.prototype.includes`. -/
def containsFrom (pat : List Char) : List Char → Bool
  | [] => pat.isEmpty
  | c :: rest => pat.isPrefixOf (c :: rest) || containsFrom pat rest

/-- JS `msg.includes(pat)` on strings. -/
def strContains (s pat : String) : Bool :=
  containsFrom pat.data s.data

/-- The three session cookies every route reads; `none` models a cookie that
is not set. -/
structure CookieStore where
  access : Option String
  refresh : Option String
  expires : Option String
deriving DecidableEq

/-- Value of the longest run of leading decimal digits, `none` when there
is no leading digit.  `seen` records whether a digit has been consumed. -/
def parseDigits (acc : Nat) (seen : Bool) : List Char → Option Nat
  | [] => if seen then some acc else none
  | ch :: rest =>
    if ch.isDigit then parseDigits (acc * 10 + (ch.toNat - 48)) true rest
    else if seen then some acc else none

/-- `parseInt` as the routes use it on the `spotify_token_expires` cookie:
the value of the longest leading (optionally minus-signed) digit run, and
`NaN` when there is no leading digit — a NaN expiry then fails every JS `<`
comparison, so the token counts as expired. -/
def jsParseInt (s : String) : JsNum :=
  match s.data with
  | '-' :: rest =>
    match parseDigits 0 false rest with
    | some n => .int (-(n : Int))
    | none => .nan
  | l =>
    match parseDigits 0 false l with
    | some n => .int (n : Int)
    | none => .nan

/-- The `userTokens` construction shared by the routes: all three cookies
must be present and JS-truthy (non-empty), otherwise the route treats the
user as anonymous; the expiry cookie is run through `parseInt`. -/
def readTokens (c : CookieStore) : Option SpotifyTokens :=
  match c.access, c.refresh, c.expires with
  | some a, some r, some e =>
    if !(a == "") && !(r == "") && !(e == "") then
      some ⟨some a, r, jsParseInt e⟩
    else none
  | _, _, _ => none

/-- Response body of GET `/api/auth/status` (route.ts lines 4-22).  The
JSON also echoes `parseInt` of the expiry cookie, which no claim consults;
the two Booleans are the ones computed on lines 11 and 15. -/
structure AuthStatusBody where
  authenticated : Bool
  hasTokens : Bool
deriving DecidableEq

/-- GET `/api/auth/status`: `authenticated` is the truthiness of all three
cookies; the current time is never consulted (the function has no clock
parameter because the source reads no clock). -/
def authStatusGET (c : CookieStore) : AuthStatusBody :=
  ⟨truthy c.access && truthy c.refresh && truthy c.expires,
   truthy c.access && truthy c.refresh⟩

/-- What a route run produced: the HTTP status of the response and the
number of client-credentials exchanges the run performed. -/
structure RouteOutcome where
  status : Nat
  ccExchanges : Nat
deriving DecidableEq

/-- GET of the user-data route (part_000): config guard, cookie guard, token
resolution, then the three parallel library fetches, whose fixed error
messages never contain "credentials not configured", so a fetch failure is
answered 500.  The route never references `getSpotifyAccessToken`, hence
`ccExchanges` is 0 on every path.  `fetchNet` is the combined outcome of the
`Promise.all` of profile / saved-tracks / recently-played. -/
def userDataGET (env : Env) (now issuedAt : Int) (c : CookieStore)
    (refreshNet : Except AxiosErr RefreshResponse)
    (fetchNet : Except AxiosErr Unit) : RouteOutcome :=
  if !env.configured then ⟨503, 0⟩
  else
    match readTokens c with
    | none => ⟨401, 0⟩
    | some t =>
      match getValidAccessToken env now issuedAt (some t) refreshNet with
      | none => ⟨401, 0⟩
      | some _ =>
        match fetchNet with
        | .error _ => ⟨500, 0⟩
        | .ok _ => ⟨200, 0⟩

/-- The placeholder-credential guard of the search route. -/
def searchPlaceholder (env : Env) : Bool :=
  env.clientId == some "your_actual_client_id_here" ||
  env.clientSecret == some "your_actual_client_secret_here" ||
  env.clientId == some "a703c5ee2c4e44f388684d905e8ba99c"

/-- Which credential the catalog search request of the search route carried. -/
inductive SearchAuth
  | user
  | service
deriving DecidableEq

/-- What a run of the search route produced: response status, number of
client-credentials exchanges, and the credential kind of the catalog search
request it issued, if it issued one. -/
structure SearchOutcome where
  status : Nat
  ccExchanges : Nat
  auth : Option SearchAuth
deriving DecidableEq

/-- The catch block of the search route GET for a rethrown axios error of
the catalog search request: 401 and 429 are forwarded, a 5xx becomes 502,
anything else (a status outside these cases, or no response) is answered
500. -/
def searchCatchStatus (e : AxiosErr) : Nat :=
  match e.status with
  | some 401 => 401
  | some 429 => 429
  | some s => if 500 ≤ s then 502 else 500
  | none => 500

/-- GET of the search route (part_001, second document).  Guards: missing
query → 400, unconfigured or placeholder credentials → 503.  With both a
cookie-backed `userTokens` and a non-null resolution the search runs with
the user token (no exchange); otherwise it falls back to
`searchWithClientCredentials`, whose first step is the client-credentials
exchange.  A thrown exchange failure ("Failed to authenticate with
Spotify") is not an axios error and contains no "credentials not
configured", so the catch answers 500; an axios error of the catalog search
request itself is rethrown and classified by `searchCatchStatus`. -/
def searchGET (env : Env) (now issuedAt : Int) (query : Option String)
    (c : CookieStore) (refreshNet : Except AxiosErr RefreshResponse)
    (ccNet : Except AxiosErr ClientCredResponse)
    (searchNet : Except AxiosErr Unit) : SearchOutcome :=
  match query with
  | none => ⟨400, 0, none⟩
  | some _ =>
    if !env.configured then ⟨503, 0, none⟩
    else if searchPlaceholder env then ⟨503, 0, none⟩
    else
      match getValidAccessToken env now issuedAt (readTokens c) refreshNet,
            readTokens c with
      | some _, some _ =>
        match searchNet with
        | .ok _ => ⟨200, 0, some .user⟩
        | .error e => ⟨searchCatchStatus e, 0, some .user⟩
      | _, _ =>
        match getSpotifyAccessToken env ccNet with
        | .error _ => ⟨500, 1, none⟩
        | .ok _ =>
          match searchNet with
          | .ok _ => ⟨200, 1, some .service⟩
          | .error e => ⟨searchCatchStatus e, 1, some .service⟩

/-- The JSON body of PUT on the playback route:
`{ action, trackUri, deviceId, volumePercent }` (deviceId does not affect
status or call counts and is omitted). -/
structure PlaybackBody where
  action : Option String
  trackUri : Option String
  volumePercent : Option Int
deriving DecidableEq

/-- The catch block of the playback PUT handler: it never sees the remote
HTTP status, only the message of the thrown `Error`, matched by substring. -/
def playbackCatchStatus (msg : ErrMsg) : Nat :=
  if strContains msg "credentials not configured" then 503
  else if strContains msg "Restriction violated" then 403
  else if strContains msg "Device not found" then 404
  else 500

/-- Outcome of one dispatched transport command inside the playback PUT:
success answers 200, a thrown error is classified by `playbackCatchStatus`.
The route never references `getSpotifyAccessToken`, so `ccExchanges` is 0. -/
def runControl (r : Except ErrMsg Unit) : RouteOutcome :=
  match r with
  | .ok _ => ⟨200, 0⟩
  | .error msg => ⟨playbackCatchStatus msg, 0⟩

/-- PUT of the playback route (playback control).  Config guard 503, cookie
guard 401, failed resolution 401, missing or unknown action 400 (a JS-falsy
empty action string also reaches a 400, via the required-action guard), then
dispatch to the `SpotifyAuth` transport command whose network outcome is
`controlNet`.  "play" additionally requires a truthy `trackUri` and
"volume" a non-undefined, non-null `volumePercent`. -/
def playbackPUT (env : Env) (now issuedAt : Int) (c : CookieStore)
    (refreshNet : Except AxiosErr RefreshResponse)
    (body : PlaybackBody)
    (controlNet : Except AxiosErr Unit) : RouteOutcome :=
  if !env.configured then ⟨503, 0⟩
  else
    match readTokens c with
    | none => ⟨401, 0⟩
    | some t =>
      match getValidAccessToken env now issuedAt (some t) refreshNet with
      | none => ⟨401, 0⟩
      | some _ =>
        match body.action with
        | none => ⟨400, 0⟩
        | some act =>
          if act == "" then ⟨400, 0⟩
          else if act == "play" then
            match body.trackUri with
            | none => ⟨400, 0⟩
            | some u =>
              if u == "" then ⟨400, 0⟩
              else runControl (playTrack controlNet)
          else if act == "pause" then runControl (pausePlayback controlNet)
          else if act == "next" then runControl (skipToNext controlNet)
          else if act == "previous" then runControl (skipToPrevious controlNet)
          else if act == "volume" then
            match body.volumePercent with
            | none => ⟨400, 0⟩
            | some _ => runControl (setVolume controlNet)
          else ⟨400, 0⟩

/-- Claim C1: for every CredentialPair whose `expiresAt` is strictly greater
than the current time, `getValidAccessToken` returns the pair's access token
with no `updatedTokens` and performs no network call. -/
theorem c1_valid_pair_passthrough (env : Env) (now issuedAt : Int)
    (t : SpotifyTokens) (net : Except AxiosErr RefreshResponse)
    (h : JsNum.lt (.int now) t.expires_at = true) :
    getValidAccessToken env now issuedAt (some t) net =
      some ⟨t.access_token, none⟩ ∧
    getValidAccessTokenCalls env now (some t) = 0 := by
  constructor
  · simp [getValidAccessToken, h]
  · simp [getValidAccessTokenCalls, h]

/-- Witness for C1 at a concrete valid pair. -/
theorem c1_witness :
    JsNum.lt (.int 0) (.int 1) = true ∧
    (getValidAccessToken ⟨none, none⟩ 0 0 (some ⟨some "a", "r", .int 1⟩)
        (.error ⟨none⟩) = some ⟨some "a", none⟩ ∧
      getValidAccessTokenCalls ⟨none, none⟩ 0
        (some ⟨some "a", "r", .int 1⟩) = 0) :=
  ⟨by decide,
   c1_valid_pair_passthrough ⟨none, none⟩ 0 0 ⟨some "a", "r", .int 1⟩
     (.error ⟨none⟩) (by decide)⟩

/-- Claim C2 counterexample: a malformed 2xx refresh body does not throw at
spotify.ts:133 — the unvalidated destructuring just yields undefined fields
— so an expired pair resolves to a non-null result carrying an undefined
access token and a NaN expiry, not the claimed Fallback null. -/
theorem c2_counterexample :
    getValidAccessToken ⟨some "id", some "secret"⟩ 1000 1000
      (some ⟨some "a", "r", .int 0⟩) (.ok ⟨none, none⟩) =
      some ⟨none, some ⟨none, "r", .nan⟩⟩ ∧
    getValidAccessToken ⟨some "id", some "secret"⟩ 1000 1000
      (some ⟨some "a", "r", .int 0⟩) (.ok ⟨none, none⟩) ≠ none := by
  decide

/-- Claim C2 as amended: for every expired CredentialPair whose refresh
attempt throws — missing configuration, or any rejected token POST (network
error, 4xx, 5xx) — `getValidAccessToken` returns the fallback `none` and,
being a total function into `Option`, never propagates an exception.  A
malformed 2xx body is excluded: it does not throw and yields a non-null
garbage result instead. -/
theorem c2_refresh_failure_yields_fallback (env : Env) (now issuedAt : Int)
    (t : SpotifyTokens) (net : Except AxiosErr RefreshResponse)
    (hexp : JsNum.lt (.int now) t.expires_at = false)
    (hfail : env.configured = false ∨ ∃ e, net = .error e) :
    getValidAccessToken env now issuedAt (some t) net = none := by
  unfold getValidAccessToken refreshAccessToken
  rcases hfail with hcfg | ⟨e, rfl⟩
  · simp [hexp, hcfg]
  · cases hcfg : env.configured <;> simp [hexp, hcfg]

/-- Witness for the amended C2: expired pair, unconfigured application
credentials. -/
theorem c2_witness :
    JsNum.lt (.int 5) (.int 0) = false ∧
    Env.configured ⟨none, none⟩ = false ∧
    getValidAccessToken ⟨none, none⟩ 5 5 (some ⟨some "a", "r", .int 0⟩)
      (.ok ⟨some "x", some 3600⟩) = none :=
  ⟨by decide, by decide,
   c2_refresh_failure_yields_fallback ⟨none, none⟩ 5 5 ⟨some "a", "r", .int 0⟩
     (.ok ⟨some "x", some 3600⟩) (by decide) (Or.inl (by decide))⟩

/-- Claim C3: for every expired CredentialPair whose refresh POST succeeds
with the service reporting an access token and `expires_in` seconds,
`getValidAccessToken` returns an `updatedTokens` that keeps the old refresh
token, carries the newly issued access token, and whose `expires_at` is the
refresh-issuance clock reading plus `expires_in * 1000`. -/
theorem c3_successful_refresh_shape (env : Env) (now issuedAt : Int)
    (t : SpotifyTokens) (tok : String) (secs : Int)
    (hexp : JsNum.lt (.int now) t.expires_at = false)
    (hcfg : env.configured = true) :
    getValidAccessToken env now issuedAt (some t)
        (.ok ⟨some tok, some secs⟩) =
      some ⟨some tok,
            some ⟨some tok, t.refresh_token,
                  .int (issuedAt + secs * 1000)⟩⟩ := by
  simp [getValidAccessToken, refreshAccessToken, expiryFrom, hexp, hcfg]

/-- Witness for C3 at the spec's scenario A: pair expired 1000 ms ago,
`expires_in = 3600`. -/
theorem c3_witness :
    JsNum.lt (.int 10000) (.int 9000) = false ∧
    Env.configured ⟨some "id", some "secret"⟩ = true ∧
    getValidAccessToken ⟨some "id", some "secret"⟩ 10000 10000
      (some ⟨some "old", "r", .int 9000⟩) (.ok ⟨some "new", some 3600⟩) =
      some ⟨some "new", some ⟨some "new", "r", .int 3610000⟩⟩ :=
  ⟨by decide, by decide,
   c3_successful_refresh_shape ⟨some "id", some "secret"⟩ 10000 10000
     ⟨some "old", "r", .int 9000⟩ "new" 3600 (by decide) (by decide)⟩

/-- Claim C4 counterexample: two overlapping invocations of
`getValidAccessToken` on the same expired pair issue two refresh calls, not
the single deduplicated one the claim requires — `SpotifyAuth` shares no
in-flight refresh between invocations. -/
theorem c4_counterexample :
    concurrentResolveRefreshCalls 2 ⟨some "id", some "secret"⟩ 1000
      (some ⟨some "a", "r", .int 0⟩) = 2 ∧
    concurrentResolveRefreshCalls 2 ⟨some "id", some "secret"⟩ 1000
      (some ⟨some "a", "r", .int 0⟩) ≠ 1 := by decide

/-- Claim C4 as amended: there is no deduplication — each of the `n`
invocations on the same expired pair issues its own refresh call, for `n`
refresh calls in total. -/
theorem c4_amended_one_refresh_per_invocation (n : Nat) (env : Env)
    (now : Int) (t : SpotifyTokens)
    (hexp : JsNum.lt (.int now) t.expires_at = false)
    (hcfg : env.configured = true) :
    concurrentResolveRefreshCalls n env now (some t) = n := by
  simp [concurrentResolveRefreshCalls, getValidAccessTokenCalls,
        refreshAccessTokenCalls, hexp, hcfg]

/-- Witness for the amended C4 at three concurrent invocations. -/
theorem c4_amended_witness :
    JsNum.lt (.int 1000) (.int 0) = false ∧
    Env.configured ⟨some "id", some "secret"⟩ = true ∧
    concurrentResolveRefreshCalls 3 ⟨some "id", some "secret"⟩ 1000
      (some ⟨some "a", "r", .int 0⟩) = 3 :=
  ⟨by decide, by decide,
   c4_amended_one_refresh_per_invocation 3 ⟨some "id", some "secret"⟩ 1000
     ⟨some "a", "r", .int 0⟩ (by decide) (by decide)⟩

/-- Claim C5 counterexample: `getSpotifyAccessToken` keeps no cache — two
calls under a configured environment perform two client-credentials
exchanges, where the claimed cache would allow at most one. -/
theorem c5_counterexample :
    repeatedGetSpotifyAccessTokenExchanges 2 ⟨some "id", some "secret"⟩ = 2 ∧
    ¬ repeatedGetSpotifyAccessTokenExchanges 2 ⟨some "id", some "secret"⟩ ≤ 1 := by
  decide

/-- Claim C5 as amended: there is no process-wide cache; every call of
`getSpotifyAccessToken` under a configured environment performs its own
client-credentials exchange, `n` calls performing `n` exchanges. -/
theorem c5_amended_exchange_every_call (n : Nat) (env : Env)
    (hcfg : env.configured = true) :
    repeatedGetSpotifyAccessTokenExchanges n env = n := by
  simp [repeatedGetSpotifyAccessTokenExchanges,
        getSpotifyAccessTokenExchanges, hcfg]

/-- Witness for the amended C5 at five calls. -/
theorem c5_amended_witness :
    Env.configured ⟨some "id", some "secret"⟩ = true ∧
    repeatedGetSpotifyAccessTokenExchanges 5 ⟨some "id", some "secret"⟩ = 5 :=
  ⟨by decide,
   c5_amended_exchange_every_call 5 ⟨some "id", some "secret"⟩ (by decide)⟩

/-- Claim C6 (code bug): the playback-state endpoint's 204 "no active
playback" answer resolves under axios's default `validateStatus` — the call
is a plain `axios.get` with no config — with the empty string as
`response.data`, so `getCurrentPlayback` returns the raw empty body from
its try branch, not the absent view `none` that the claim and the code's
own "No active playback" comment on the (unreachable) status-204 catch
branch at spotify.ts:410 call for. -/
theorem c6_code_divergence :
    getCurrentPlayback Unit (.ok PlaybackData.emptyBody) =
      .ok (some PlaybackData.emptyBody) ∧
    (some PlaybackData.emptyBody : Option (PlaybackData Unit)) ≠ none := by
  exact ⟨rfl, by decide⟩

/-- Claim C7: when token resolution yields the fallback `none` for a
request that carried all three session cookies, the user-data route and the
playback route answer 401 without any client-credentials exchange, while
the search route retries with client credentials (one exchange, and the
catalog request never carries the user token). -/
theorem c7_identity_ops_401_search_falls_back
    (env : Env) (now issuedAt : Int) (c : CookieStore) (t : SpotifyTokens)
    (refreshNet : Except AxiosErr RefreshResponse)
    (fetchNet controlNet searchNet : Except AxiosErr Unit)
    (ccNet : Except AxiosErr ClientCredResponse)
    (body : PlaybackBody) (q : String)
    (hcfg : env.configured = true)
    (hph : searchPlaceholder env = false)
    (hread : readTokens c = some t)
    (hres : getValidAccessToken env now issuedAt (some t) refreshNet = none) :
    userDataGET env now issuedAt c refreshNet fetchNet = ⟨401, 0⟩ ∧
    playbackPUT env now issuedAt c refreshNet body controlNet = ⟨401, 0⟩ ∧
    (searchGET env now issuedAt (some q) c refreshNet ccNet
        searchNet).ccExchanges = 1 ∧
    (searchGET env now issuedAt (some q) c refreshNet ccNet
        searchNet).auth ≠ some SearchAuth.user := by
  refine ⟨?_, ?_, ?_⟩
  · simp [userDataGET, hcfg, hread, hres]
  · simp [playbackPUT, hcfg, hread, hres]
  · unfold searchGET getSpotifyAccessToken
    rw [hread, hres]
    cases ccNet <;> cases searchNet <;> simp [hcfg, hph]

/-- Witness for C7: expired cookies whose refresh the service rejects. -/
theorem c7_witness :
    Env.configured ⟨some "id", some "secret"⟩ = true ∧
    searchPlaceholder ⟨some "id", some "secret"⟩ = false ∧
    readTokens ⟨some "a", some "r", some "0"⟩ = some ⟨some "a", "r", .int 0⟩ ∧
    getValidAccessToken ⟨some "id", some "secret"⟩ 5 5
      (some ⟨some "a", "r", .int 0⟩) (.error ⟨some 400⟩) = none ∧
    (userDataGET ⟨some "id", some "secret"⟩ 5 5 ⟨some "a", some "r", some "0"⟩
        (.error ⟨some 400⟩) (.ok ()) = ⟨401, 0⟩ ∧
      playbackPUT ⟨some "id", some "secret"⟩ 5 5 ⟨some "a", some "r", some "0"⟩
        (.error ⟨some 400⟩) ⟨some "pause", none, none⟩ (.ok ()) = ⟨401, 0⟩ ∧
      (searchGET ⟨some "id", some "secret"⟩ 5 5 (some "q")
          ⟨some "a", some "r", some "0"⟩ (.error ⟨some 400⟩)
          (.ok ⟨"svc"⟩) (.ok ())).ccExchanges = 1 ∧
      (searchGET ⟨some "id", some "secret"⟩ 5 5 (some "q")
          ⟨some "a", some "r", some "0"⟩ (.error ⟨some 400⟩)
          (.ok ⟨"svc"⟩) (.ok ())).auth ≠ some SearchAuth.user) :=
  ⟨by decide, by decide, by decide, by decide,
   c7_identity_ops_401_search_falls_back ⟨some "id", some "secret"⟩ 5 5
     ⟨some "a", some "r", some "0"⟩ ⟨some "a", "r", .int 0⟩ (.error ⟨some 400⟩)
     (.ok ()) (.ok ()) (.ok ()) (.ok ⟨"svc"⟩) ⟨some "pause", none, none⟩ "q"
     (by decide) (by decide) (by decide) (by decide)⟩

/-- Claim C8 counterexample: a remote 401 on the play command is answered
500 by the playback route, not 401 — `playTrack` discards the remote status
into a fixed message that matches none of the handler's substring checks. -/
theorem c8_counterexample :
    playbackPUT ⟨some "id", some "secret"⟩ 0 0 ⟨some "a", some "r", some "99"⟩
      (.ok ⟨some "new", some 3600⟩) ⟨some "play", some "spotify:track:X", none⟩
      (.error ⟨some 401⟩) = ⟨500, 0⟩ ∧
    (500 : Nat) ≠ 401 := by
  constructor
  · rfl
  · decide

/-- Claim C8 as amended: the playback route normalizes remote failures by
error-message substring, not by HTTP status; the `SpotifyAuth` transport
commands replace every remote failure by a fixed generic message matching
none of the substrings, so every remote failure of every dispatched action
— whatever its status, 401, 403, 404, 429 or 5xx — is answered 500. -/
theorem c8_amended_remote_failures_answered_500
    (env : Env) (now issuedAt : Int) (c : CookieStore) (t : SpotifyTokens)
    (refreshNet : Except AxiosErr RefreshResponse) (e : AxiosErr)
    (body : PlaybackBody) (res : TokenResult)
    (hcfg : env.configured = true)
    (hread : readTokens c = some t)
    (hres : getValidAccessToken env now issuedAt (some t) refreshNet =
      some res)
    (hact : (body.action = some "play" ∧
              ∃ u, body.trackUri = some u ∧ u ≠ "") ∨
            body.action = some "pause" ∨ body.action = some "next" ∨
            body.action = some "previous" ∨
            (body.action = some "volume" ∧
              ∃ v, body.volumePercent = some v)) :
    playbackPUT env now issuedAt c refreshNet body (.error e) = ⟨500, 0⟩ := by
  unfold playbackPUT
  rcases hact with ⟨ha, u, hu, hune⟩ | ha | ha | ha | ⟨ha, v, hv⟩ <;>
    simp [hcfg, hread, hres, ha] <;>
    first
      | (rw [hu]; simp [hune]; rfl)
      | rfl
      | (rw [hv]; rfl)

/-- Witness for the amended C8: a remote 429 on the pause command is
answered 500. -/
theorem c8_amended_witness :
    Env.configured ⟨some "id", some "secret"⟩ = true ∧
    readTokens ⟨some "a", some "r", some "99"⟩ =
      some ⟨some "a", "r", .int 99⟩ ∧
    getValidAccessToken ⟨some "id", some "secret"⟩ 0 0
      (some ⟨some "a", "r", .int 99⟩) (.ok ⟨some "new", some 3600⟩) =
      some ⟨some "a", none⟩ ∧
    playbackPUT ⟨some "id", some "secret"⟩ 0 0 ⟨some "a", some "r", some "99"⟩
      (.ok ⟨some "new", some 3600⟩) ⟨some "pause", none, none⟩
      (.error ⟨some 429⟩) = ⟨500, 0⟩ :=
  ⟨by decide, by decide, by decide,
   c8_amended_remote_failures_answered_500 ⟨some "id", some "secret"⟩ 0 0
     ⟨some "a", some "r", some "99"⟩ ⟨some "a", "r", .int 99⟩
     (.ok ⟨some "new", some 3600⟩) ⟨some 429⟩ ⟨some "pause", none, none⟩
     ⟨some "a", none⟩ (by decide) (by decide) (by decide)
     (Or.inr (Or.inl rfl))⟩

/-- Claim C9: for every integer `volumePercent`, `setVolume` sends
`max 0 (min 100 v)`, which always lies within 0..100. -/
theorem c9_volume_clamped (v : Int) :
    setVolumeSentPercent v = max 0 (min 100 v) ∧
    0 ≤ setVolumeSentPercent v ∧ setVolumeSentPercent v ≤ 100 := by
  refine ⟨rfl, le_max_left 0 _, ?_⟩
  exact max_le (by norm_num) (min_le_left _ _)

/-- Claim C10: the auth-status route reports `authenticated` exactly when
all three session cookies are present and non-empty; the route reads no
clock, so a stored expiry already in the past still yields
`authenticated = true`. -/
theorem c10_auth_status_presence_only :
    (∀ c : CookieStore, ((authStatusGET c).authenticated = true ↔
      (∃ a, c.access = some a ∧ a ≠ "") ∧
      (∃ r, c.refresh = some r ∧ r ≠ "") ∧
      (∃ e, c.expires = some e ∧ e ≠ ""))) ∧
    (∀ now : Int, JsNum.lt (jsParseInt "0") (.int now) = true →
      (authStatusGET ⟨some "a", some "r", some "0"⟩).authenticated = true) := by
  constructor
  · intro c
    rcases c with ⟨a, r, e⟩
    cases a <;> cases r <;> cases e <;>
      simp [authStatusGET, truthy, and_assoc]
  · intro now _
    rfl

/-- Witness for C10: a session whose stored expiry (0) lies before the
clock (1) is still reported authenticated. -/
theorem c10_witness :
    JsNum.lt (jsParseInt "0") (.int 1) = true ∧
    (authStatusGET ⟨some "a", some "r", some "0"⟩).authenticated = true :=
  ⟨by decide, c10_auth_status_presence_only.2 1 (by decide)⟩
